import Mathlib

/-!
Shallow embedding of `src/indexer-futures-contract.rs` (an Arbitrum Stylus
smart contract managing futures between Graph indexers and buyers).

Modelling conventions:
* `Address` and `B256` are opaque identities, modelled as `Nat`
  (`Address::from(0)` is the value `0`).
* `U256` amounts, timestamps and durations are modelled as `Nat`.  The
  source's `U256` additions (`alloy_primitives::U256`, whose `+` wraps on
  overflow) are modelled by `uadd`, addition modulo `U256MOD = 2^256`;
  comparisons carry over directly.
* `StorageMap` lookups on absent keys return zero-initialised values
  (EVM storage semantics), so the maps are total functions into types
  with a zero default; the default `Future` has `is_active = false`.
* The external ERC-20 token (the Token Transfer Gateway) is a parameter
  `gw : Gw`.  It receives the call made by `transfer_tokens` together
  with the contract state at the moment of the call, and returns the
  call outcome (`none` = call-level failure, `some b` = returned `b`)
  plus a possibly-updated contract state: the updated state models the
  gateway re-entering this contract's public operations during its own
  execution.  A non-reentrant gateway is one that returns the state
  unchanged (`pureGw`).
* Each operation also returns a trace: the list of gateway calls it made,
  each paired with the contract state observable at the moment of the call.
* `evm::log` events are omitted: no claim under study mentions them.
* A Stylus `#[external]` method that returns `Err` reverts the
  transaction, discarding every storage write of the call frame; `tx`
  wraps the raw (write-threading) body with this revert semantics, and
  the public operations `stake`, `create_future`, `cancel_future`,
  `settle_future`, `submit_poi` are the `tx`-wrapped bodies.
-/

/-- Identities (`Address`): opaque, modelled as `Nat`; `0` is the zero address. -/
abbrev Addr : Type := Nat

/-- `B256` values (subgraph ids, POI values): opaque, modelled as `Nat`. -/
abbrev B256 : Type := Nat

/-- One record of the `futures` map (`struct Future` in the source). -/
structure Future where
  indexer : Addr
  buyer : Addr
  amount : Nat
  start_time : Nat
  duration : Nat
  is_active : Bool
deriving DecidableEq, Repr

/-- The zero-initialised `Future`, returned by `StorageMap` for absent keys. -/
def Future.zero : Future :=
  { indexer := 0, buyer := 0, amount := 0, start_time := 0, duration := 0, is_active := false }

/-- The contract's storage (`struct IndexerFuturesContract`). -/
structure ContractState where
  owner : Addr
  futures : Addr × Addr → Future
  indexer_stakes : Addr → Nat
  grt_token : Addr
  graph_token : Addr
  staking_contract : Addr
  poi_data : B256 × Nat → B256

/-- `StorageMap::insert` on a zero-defaulted total map. -/
def mapInsert {α β : Type} [DecidableEq α] (f : α → β) (a : α) (b : β) : α → β :=
  fun x => if x = a then b else f x

/-- The modulus of the source's 256-bit `U256` type. -/
def U256MOD : Nat := 2 ^ 256

/-- The `+` of `alloy_primitives::U256` (ruint), which wraps on overflow:
addition modulo `2^256`. -/
def uadd (a b : Nat) : Nat := (a + b) % U256MOD

/-- The per-call environment: `msg::sender()`, `block::timestamp()` and the
contract's own address `Address::from(self)`. -/
structure Env where
  sender : Addr
  now : Nat
  selfAddr : Addr

/-- The error taxonomy.  Each constructor is one distinct error string of the
source; both failure modes of `transfer_grt` ("GRT transfer failed" for a
call-level error and "GRT transfer returned false" for a `false` return)
surface as `TransferFailed`, matching the spec's taxonomy. -/
inductive Err where
  | DuplicateFuture
  | InsufficientStake
  | NoActiveFuture
  | NotMatured
  | PerformanceCheckFailed
  | TransferFailed
deriving DecidableEq, Repr

/-- One call into the external ERC-20 token, as issued by
`call::transfer_tokens`. -/
inductive TransferCall where
  | transfer (token toA : Addr) (amount : Nat)
  | transferFrom (token fromA toA : Addr) (amount : Nat)
deriving DecidableEq, Repr

/-- The Token Transfer Gateway: given the ERC-20 call and the contract state
at the moment of the call, yields the call outcome (`none` = call-level
failure) and the contract state after the call (which may differ from the
input state when the gateway re-enters the contract). -/
abbrev Gw : Type := TransferCall → ContractState → Option Bool × ContractState

/-- A non-reentrant gateway: it decides an outcome and leaves the contract
state untouched. -/
def pureGw (o : TransferCall → Option Bool) : Gw :=
  fun c s => (o c, s)

/-- The trace of gateway calls an operation made, each paired with the
contract state observable at the moment of the call. -/
abbrev Trace : Type := List (TransferCall × ContractState)

/-- `call::transfer_tokens`: dispatches to `transfer` when `from` is the
zero address, and to `transferFrom` otherwise. -/
def transfer_tokens (gw : Gw) (token fromA toA : Addr) (amount : Nat)
    (s : ContractState) : Option Bool × ContractState × Trace :=
  if fromA = 0 then
    let c : TransferCall := .transfer token toA amount
    let r := gw c s
    (r.1, r.2, [(c, s)])
  else
    let c : TransferCall := .transferFrom token fromA toA amount
    let r := gw c s
    (r.1, r.2, [(c, s)])

/-- `transfer_grt`: calls the gateway on the GRT token and maps both a
call-level failure and a `false` return to `TransferFailed`. -/
def transfer_grt (gw : Gw) (fromA toA : Addr) (amount : Nat)
    (s : ContractState) : Except Err Unit × ContractState × Trace :=
  match transfer_tokens gw s.grt_token fromA toA amount s with
  | (none, s1, tr) => (.error .TransferFailed, s1, tr)
  | (some false, s1, tr) => (.error .TransferFailed, s1, tr)
  | (some true, s1, tr) => (.ok (), s1, tr)

/-- The `self.transfer_grt(..)?; ...; Ok(())` pattern: propagate an `Err`
from the transfer unchanged, and replace its `Ok` payload by `Ok(())`. -/
def andThenOk (r : Except Err Unit × ContractState × Trace) :
    Except Err Unit × ContractState × Trace :=
  match r with
  | (.ok _, s2, tr) => (.ok (), s2, tr)
  | (.error e, s2, tr) => (.error e, s2, tr)

/-- Body of `stake`: increments the sender's ledger entry, then transfers
GRT from the sender to the staking contract.  Note the ledger write happens
before the transfer; on `Err` the write is discarded by the `tx` wrapper. -/
def stakeRaw (gw : Gw) (env : Env) (amount : Nat)
    (s : ContractState) : Except Err Unit × ContractState × Trace :=
  let indexer := env.sender
  let current_stake := s.indexer_stakes indexer
  let s1 := { s with indexer_stakes := mapInsert s.indexer_stakes indexer (uadd current_stake amount) }
  andThenOk (transfer_grt gw indexer s1.staking_contract amount s1)

/-- Body of `create_future`: duplicate check, stake check, record write,
then the escrow transfer from the buyer to the contract. -/
def create_futureRaw (gw : Gw) (env : Env) (buyer : Addr) (amount duration : Nat)
    (s : ContractState) : Except Err Unit × ContractState × Trace :=
  let indexer := env.sender
  let key := (indexer, buyer)
  if (s.futures key).is_active then
    (.error .DuplicateFuture, s, [])
  else
    let indexer_stake := s.indexer_stakes indexer
    if indexer_stake < amount then
      (.error .InsufficientStake, s, [])
    else
      let future : Future :=
        { indexer := indexer, buyer := buyer, amount := amount,
          start_time := env.now, duration := duration, is_active := true }
      let s1 := { s with futures := mapInsert s.futures key future }
      andThenOk (transfer_grt gw buyer env.selfAddr amount s1)

/-- Body of `cancel_future`: active check, flag flip committed to the
registry, then the refund transfer from the contract to the buyer. -/
def cancel_futureRaw (gw : Gw) (env : Env) (indexer : Addr)
    (s : ContractState) : Except Err Unit × ContractState × Trace :=
  let buyer := env.sender
  let key := (indexer, buyer)
  let future := s.futures key
  if !future.is_active then
    (.error .NoActiveFuture, s, [])
  else
    let future1 := { future with is_active := false }
    let s1 := { s with futures := mapInsert s.futures key future1 }
    let amount := future1.amount
    andThenOk (transfer_grt gw env.selfAddr buyer amount s1)

/-- `check_indexer_performance`: always returns `Ok`, with `true` iff the
indexer's ledger entry is positive (`stake > U256::ZERO`). -/
def check_indexer_performance (s : ContractState) (indexer : Addr) : Except Err Bool :=
  .ok (decide (0 < s.indexer_stakes indexer))

/-- Body of `settle_future`: active check, maturity check, performance
check, flag flip committed to the registry, then the payout transfer from
the contract to the indexer. -/
def settle_futureRaw (gw : Gw) (env : Env) (buyer : Addr)
    (s : ContractState) : Except Err Unit × ContractState × Trace :=
  let indexer := env.sender
  let key := (indexer, buyer)
  let future := s.futures key
  if !future.is_active then
    (.error .NoActiveFuture, s, [])
  else
    let current_time := env.now
    let end_time := uadd future.start_time future.duration
    if current_time < end_time then
      (.error .NotMatured, s, [])
    else
      match check_indexer_performance s indexer with
      | .error e => (.error e, s, [])
      | .ok perf =>
        if !perf then
          (.error .PerformanceCheckFailed, s, [])
        else
          let future1 := { future with is_active := false }
          let s1 := { s with futures := mapInsert s.futures key future1 }
          let amount := future1.amount
          andThenOk (transfer_grt gw env.selfAddr indexer amount s1)

/-- Body of `submit_poi`: unconditionally overwrites the entry for
`(subgraph_id, block_number)`. -/
def submit_poiRaw (env : Env) (subgraph_id : B256) (block_number : Nat) (poi : B256)
    (s : ContractState) : Except Err Unit × ContractState × Trace :=
  let _ := env
  let key := (subgraph_id, block_number)
  (.ok (), { s with poi_data := mapInsert s.poi_data key poi }, [])

/-- Transactional wrapper: a Stylus `#[external]` method returning `Err`
reverts the transaction, so every storage write of the call frame —
including writes performed by reentrant calls during a gateway call — is
discarded and the pre-call state is restored.  The trace records what was
attempted, even when reverted. -/
def tx (body : ContractState → Except Err Unit × ContractState × Trace)
    (s : ContractState) : Except Err Unit × ContractState × Trace :=
  match body s with
  | (.ok u, s1, tr) => (.ok u, s1, tr)
  | (.error e, _, tr) => (.error e, s, tr)

/-- Public operation `stake`. -/
def stake (gw : Gw) (env : Env) (amount : Nat)
    (s : ContractState) : Except Err Unit × ContractState × Trace :=
  tx (stakeRaw gw env amount) s

/-- Public operation `create_future`. -/
def create_future (gw : Gw) (env : Env) (buyer : Addr) (amount duration : Nat)
    (s : ContractState) : Except Err Unit × ContractState × Trace :=
  tx (create_futureRaw gw env buyer amount duration) s

/-- Public operation `cancel_future`. -/
def cancel_future (gw : Gw) (env : Env) (indexer : Addr)
    (s : ContractState) : Except Err Unit × ContractState × Trace :=
  tx (cancel_futureRaw gw env indexer) s

/-- Public operation `settle_future`. -/
def settle_future (gw : Gw) (env : Env) (buyer : Addr)
    (s : ContractState) : Except Err Unit × ContractState × Trace :=
  tx (settle_futureRaw gw env buyer) s

/-- Public operation `submit_poi`. -/
def submit_poi (env : Env) (subgraph_id : B256) (block_number : Nat) (poi : B256)
    (s : ContractState) : Except Err Unit × ContractState × Trace :=
  tx (submit_poiRaw env subgraph_id block_number poi) s

/-! ### Sequences of public operations

To state properties over "any sequence of public operations" we give names
to the five public entry points and run lists of calls.  Each call carries
its own environment and its own gateway outcomes; the gateways here are
non-reentrant (`pureGw`), matching the default Stylus execution model in
which a call sequence is exactly a sequence of top-level public operations. -/

/-- One public entry point together with its arguments. -/
inductive Op where
  | stakeOp (amount : Nat)
  | createOp (buyer : Addr) (amount duration : Nat)
  | cancelOp (indexer : Addr)
  | settleOp (buyer : Addr)
  | poiOp (subgraph_id : B256) (block_number : Nat) (poi : B256)
deriving DecidableEq, Repr

/-- One top-level call: an environment, the gateway outcomes for the
transfers the call makes, and the entry point invoked. -/
structure Call where
  env : Env
  gwo : TransferCall → Option Bool
  op : Op

/-- Execute one top-level call, keeping only the resulting state. -/
def stepCall (c : Call) (s : ContractState) : ContractState :=
  match c.op with
  | .stakeOp amount => (stake (pureGw c.gwo) c.env amount s).2.1
  | .createOp buyer amount duration => (create_future (pureGw c.gwo) c.env buyer amount duration s).2.1
  | .cancelOp indexer => (cancel_future (pureGw c.gwo) c.env indexer s).2.1
  | .settleOp buyer => (settle_future (pureGw c.gwo) c.env buyer s).2.1
  | .poiOp sub blk poi => (submit_poi c.env sub blk poi s).2.1

/-- Run a sequence of top-level calls from a state. -/
def run (cs : List Call) (s : ContractState) : ContractState :=
  match cs with
  | [] => s
  | c :: rest => run rest (stepCall c s)

/-- `c` is not a `create_future` call for the key `k`. -/
def NotCreateFor (k : Addr × Addr) (c : Call) : Prop :=
  ∀ buyer amount duration, c.op = .createOp buyer amount duration →
    (c.env.sender, buyer) ≠ k

/-- Along a run of `cs` from `s`, no `stake` call overflows the 256-bit
ledger entry it increments (current entry + amount stays below `2^256`),
so no `U256` wrap-around occurs in the Stake Ledger. -/
def NoStakeOverflow : List Call → ContractState → Prop
  | [], _ => True
  | c :: rest, s =>
      (match c.op with
       | .stakeOp a => s.indexer_stakes c.env.sender + a < U256MOD
       | _ => True) ∧
      NoStakeOverflow rest (stepCall c s)

/-- Every terminal transition on the key `(indexer, buyer)` is rejected at
state `s`: any `cancel_future` by `buyer` and any `settle_future` by
`indexer` on that key, under any gateway, any timestamp and any contract
address, fails with `NoActiveFuture`. -/
def terminalOpsRejected (s : ContractState) (indexer buyer : Addr) : Prop :=
  (∀ (gw : Gw) (now : Nat) (selfA : Addr),
      cancel_future gw ⟨buyer, now, selfA⟩ indexer s = (.error .NoActiveFuture, s, [])) ∧
  (∀ (gw : Gw) (now : Nat) (selfA : Addr),
      settle_future gw ⟨indexer, now, selfA⟩ buyer s = (.error .NoActiveFuture, s, []))

/-- The ERC-20 call `transfer_tokens` issues for given arguments (used to
state a normal form for `transfer_grt`). -/
def tcall (token fromA toA : Addr) (amount : Nat) : TransferCall :=
  if fromA = 0 then .transfer token toA amount else .transferFrom token fromA toA amount

/-! ### Test fixtures (concrete states and gateways used by witnesses) -/

/-- Zero-initialised contract storage, with token addresses 7 and 8 and
staking contract 9 (as set by the constructor). -/
def s0 : ContractState :=
  { owner := 0, futures := fun _ => Future.zero, indexer_stakes := fun _ => 0,
    grt_token := 7, graph_token := 8, staking_contract := 9, poi_data := fun _ => 0 }

/-- `s0` with stake 100 for indexer 1 and an active future
(indexer 1, buyer 2, amount 50, start_time 100, duration 1000). -/
def sActive : ContractState :=
  { s0 with
    indexer_stakes := mapInsert s0.indexer_stakes 1 100,
    futures := mapInsert s0.futures (1, 2) ⟨1, 2, 50, 100, 1000, true⟩ }

/-- The contract state observable at the moment of the refund transfer
during a cancel of the (1, 2) future of `sActive`. -/
def sCancelMid : ContractState :=
  { sActive with futures := mapInsert sActive.futures (1, 2) ⟨1, 2, 50, 100, 1000, false⟩ }

/-- Gateway outcomes: every transfer succeeds. -/
def gwAlwaysTrue : TransferCall → Option Bool := fun _ => some true

/-- Gateway outcomes: every transfer returns `false`. -/
def gwAlwaysFalse : TransferCall → Option Bool := fun _ => some false

/-- `s0` with a mature-by-time-2000 active future for (1, 2) but no stake
for indexer 1 (so the performance check fails). -/
def sActiveNoStake : ContractState :=
  { s0 with futures := mapInsert s0.futures (1, 2) ⟨1, 2, 30, 100, 1000, true⟩ }

/-- `s0` with stake 100 for indexer 1 and an active future for (1, 2)
whose caller-chosen duration is `2^256 - 1`, so the `U256` sum
`start_time + duration` wraps around to 99. -/
def sActiveHugeDur : ContractState :=
  { s0 with
    indexer_stakes := mapInsert s0.indexer_stakes 1 100,
    futures := mapInsert s0.futures (1, 2) ⟨1, 2, 0, 100, 2 ^ 256 - 1, true⟩ }

/-- A top-level call: indexer 1 stakes `2^256 - 1` (transfers succeed). -/
def callStakeHuge : Call := ⟨⟨1, 0, 5⟩, gwAlwaysTrue, .stakeOp (2 ^ 256 - 1)⟩

/-- A top-level call: indexer 1 stakes 2 (transfers succeed). -/
def callStakeTwo : Call := ⟨⟨1, 3, 5⟩, gwAlwaysTrue, .stakeOp 2⟩

/-- A top-level call: indexer 1 stakes 3 (transfers succeed). -/
def callStakeSmall : Call := ⟨⟨1, 6, 5⟩, gwAlwaysTrue, .stakeOp 3⟩

/-! ### Helper lemmas -/

/-- Normal form of `transfer_grt`: one gateway call on `tcall`, outcome
`ok` exactly for a `some true` return, trace recording the pre-call state. -/
lemma transfer_grt_eq (gw : Gw) (fromA toA : Addr) (amount : Nat) (s : ContractState) :
    transfer_grt gw fromA toA amount s =
      ((if (gw (tcall s.grt_token fromA toA amount) s).1 = some true then .ok ()
        else .error .TransferFailed),
       (gw (tcall s.grt_token fromA toA amount) s).2,
       [(tcall s.grt_token fromA toA amount, s)]) := by
  unfold transfer_grt transfer_tokens tcall
  by_cases h0 : fromA = 0
  · simp only [h0, ite_true]
    rcases hg : gw (TransferCall.transfer s.grt_token toA amount) s with ⟨ob, s1⟩
    rcases ob with _ | b
    · rfl
    · cases b <;> rfl
  · simp only [h0, ite_false]
    rcases hg : gw (TransferCall.transferFrom s.grt_token fromA toA amount) s with ⟨ob, s1⟩
    rcases ob with _ | b
    · rfl
    · cases b <;> rfl

/-- Wrapped addition is bounded by the unwrapped sum. -/
lemma uadd_le_add (a b : Nat) : uadd a b ≤ a + b := Nat.mod_le _ _

/-- Wrapped addition below the modulus is plain addition. -/
lemma uadd_eq_of_lt {a b : Nat} (h : a + b < U256MOD) : uadd a b = a + b :=
  Nat.mod_eq_of_lt h

/-- `andThenOk` is the identity: the `Ok` payload is already `()`. -/
lemma andThenOk_eq (r : Except Err Unit × ContractState × Trace) : andThenOk r = r := by
  rcases r with ⟨res, s2, tr⟩
  cases res <;> rfl

/-- The reported result of a public operation is the raw body's result. -/
lemma tx_fst (body : ContractState → Except Err Unit × ContractState × Trace)
    (s : ContractState) : (tx body s).1 = (body s).1 := by
  unfold tx
  rcases hb : body s with ⟨r, s1, tr⟩
  cases r <;> rfl

/-- The trace of a public operation is the raw body's trace. -/
lemma tx_trace (body : ContractState → Except Err Unit × ContractState × Trace)
    (s : ContractState) : (tx body s).2.2 = (body s).2.2 := by
  unfold tx
  rcases hb : body s with ⟨r, s1, tr⟩
  cases r <;> rfl

/-- A public operation that errors leaves the state unchanged (revert). -/
lemma tx_error_snd (body : ContractState → Except Err Unit × ContractState × Trace)
    (s : ContractState) (e : Err) (h : (tx body s).1 = .error e) :
    (tx body s).2.1 = s := by
  unfold tx at *
  rcases hb : body s with ⟨r, s1, tr⟩
  rw [hb] at h
  cases r
  · rfl
  · exact Except.noConfusion h

/-- A public operation whose body succeeds commits the body's writes. -/
lemma tx_of_ok (body : ContractState → Except Err Unit × ContractState × Trace)
    (s : ContractState) (h : (body s).1 = .ok ()) : tx body s = body s := by
  unfold tx
  rcases hb : body s with ⟨r, s1, tr⟩
  rw [hb] at h
  cases r
  · exact Except.noConfusion h
  · rfl


/-! ### Claim theorems -/

/-- **C6**: for every (indexer, buyer) pair with an active Future in the
registry, `create_future` by that indexer for that buyer fails with
`DuplicateFuture` regardless of the amount and duration arguments, leaves
the state unchanged, and makes no gateway call (the rejection happens
before the stake check and before any transfer). -/
theorem create_future_duplicate_rejected (gw : Gw) (env : Env) (s : ContractState)
    (buyer : Addr) (amount duration : Nat)
    (h : (s.futures (env.sender, buyer)).is_active = true) :
    create_future gw env buyer amount duration s = (.error .DuplicateFuture, s, []) := by
  unfold create_future tx create_futureRaw
  simp [h]

/-- Witness for C6: on `sActive` (active future for (1, 2), stake 100),
indexer 1 attempting a second future for buyer 2 — with amount 200, which
also exceeds the stake — is rejected with `DuplicateFuture`, not
`InsufficientStake`, with no transfer attempted. -/
theorem create_future_duplicate_rejected_witness :
    (sActive.futures ((⟨1, 500, 5⟩ : Env).sender, 2)).is_active = true ∧
    create_future (pureGw gwAlwaysTrue) ⟨1, 500, 5⟩ 2 200 10 sActive =
      (.error .DuplicateFuture, sActive, []) :=
  ⟨rfl, create_future_duplicate_rejected (pureGw gwAlwaysTrue) ⟨1, 500, 5⟩ sActive 2 200 10 rfl⟩

/-- Counterexample to C4 as stated: the source computes the end time with
the wrapping `U256` addition, so with the caller-chosen duration
`2^256 - 1` the end time wraps to 99 and settlement at time 500 —
astronomically before the mathematical `start_time + duration` — passes
the maturity check and succeeds instead of failing with `NotMatured`. -/
theorem settle_future_maturity_cex :
    (sActiveHugeDur.futures (1, 2)).is_active = true ∧
    (500 : Nat) < (sActiveHugeDur.futures (1, 2)).start_time +
      (sActiveHugeDur.futures (1, 2)).duration ∧
    (settle_future (pureGw gwAlwaysTrue) ⟨1, 500, 5⟩ 2 sActiveHugeDur).1 = .ok () :=
  ⟨rfl, by decide, rfl⟩

/-- **C4** (amended): the maturity check compares `now` against the `U256`
sum of `start_time` and `duration`, which wraps modulo `2^256`: for an
active Future, `settle_future` strictly before `uadd start_time duration`
fails with `NotMatured` (no state change, no transfer), and at or after it
the maturity check passes (the result is never `NotMatured`).  When
`start_time + duration < 2^256` this is the claim as written. -/
theorem settle_future_maturity_gate (gw : Gw) (env : Env) (s : ContractState) (buyer : Addr)
    (hact : (s.futures (env.sender, buyer)).is_active = true) :
    (env.now < uadd (s.futures (env.sender, buyer)).start_time
        (s.futures (env.sender, buyer)).duration →
       settle_future gw env buyer s = (.error .NotMatured, s, [])) ∧
    (uadd (s.futures (env.sender, buyer)).start_time
        (s.futures (env.sender, buyer)).duration ≤ env.now →
       (settle_future gw env buyer s).1 ≠ .error .NotMatured) := by
  constructor
  · intro hlt
    unfold settle_future tx settle_futureRaw
    simp [hact, hlt]
  · intro hge
    rw [settle_future, tx_fst]
    unfold settle_futureRaw check_indexer_performance
    simp only [andThenOk_eq]
    rw [transfer_grt_eq]
    split_ifs with h1 h2 h3 h4 <;> simp_all
    omega

/-- Witness for C4: on `sActive` (start_time 100, duration 1000, wrapped
end time 1100), settling at time 500 < 1100 fails with `NotMatured`. -/
theorem settle_future_maturity_gate_witness :
    (sActive.futures ((⟨1, 500, 5⟩ : Env).sender, 2)).is_active = true ∧
    (⟨1, 500, 5⟩ : Env).now < uadd (sActive.futures (1, 2)).start_time
      (sActive.futures (1, 2)).duration ∧
    settle_future (pureGw gwAlwaysTrue) ⟨1, 500, 5⟩ 2 sActive = (.error .NotMatured, sActive, []) :=
  ⟨rfl, by decide,
   (settle_future_maturity_gate (pureGw gwAlwaysTrue) ⟨1, 500, 5⟩ sActive 2 rfl).1 (by decide)⟩

/-- **C5**: `check_indexer_performance(indexer)` returns true iff
Stake Ledger[indexer] > 0, and `settle_future` on a mature active Future
fails with `PerformanceCheckFailed` exactly when that predicate is false
for the calling indexer. -/
theorem settle_future_performance_gate (gw : Gw) (env : Env) (s : ContractState) (buyer : Addr)
    (hact : (s.futures (env.sender, buyer)).is_active = true)
    (hmat : (s.futures (env.sender, buyer)).start_time +
      (s.futures (env.sender, buyer)).duration ≤ env.now) :
    (∀ i : Addr, check_indexer_performance s i = .ok true ↔ 0 < s.indexer_stakes i) ∧
    ((settle_future gw env buyer s).1 = .error .PerformanceCheckFailed ↔
       check_indexer_performance s env.sender = .ok false) := by
  constructor
  · intro i
    unfold check_indexer_performance
    simp
  · have hud := uadd_le_add (s.futures (env.sender, buyer)).start_time
      (s.futures (env.sender, buyer)).duration
    rw [settle_future, tx_fst]
    unfold settle_futureRaw check_indexer_performance
    simp only [andThenOk_eq]
    rw [transfer_grt_eq]
    split_ifs with h1 h2 h3 h4 <;> simp_all
    omega

/-- Witness for C5: on `sActiveNoStake` (active future for (1, 2), mature at
time 2000, indexer 1 has zero stake) settlement fails with
`PerformanceCheckFailed`, and the oracle predicate is false. -/
theorem settle_future_performance_gate_witness :
    (sActiveNoStake.futures ((⟨1, 2000, 5⟩ : Env).sender, 2)).is_active = true ∧
    (sActiveNoStake.futures (1, 2)).start_time + (sActiveNoStake.futures (1, 2)).duration ≤
      (⟨1, 2000, 5⟩ : Env).now ∧
    ((settle_future (pureGw gwAlwaysTrue) ⟨1, 2000, 5⟩ 2 sActiveNoStake).1 =
        .error .PerformanceCheckFailed ↔
      check_indexer_performance sActiveNoStake 1 = .ok false) :=
  ⟨rfl, by decide,
   (settle_future_performance_gate (pureGw gwAlwaysTrue) ⟨1, 2000, 5⟩ sActiveNoStake 2 rfl
     (by decide)).2⟩

/-- State after a successful `stake` with a non-reentrant gateway: the
sender's ledger entry is incremented by the staked amount, with the
source's wrapping `U256` addition. -/
lemma stake_pure_state (gwo : TransferCall → Option Bool) (env : Env) (amount : Nat)
    (s : ContractState) (h : (stake (pureGw gwo) env amount s).1 = .ok ()) :
    (stake (pureGw gwo) env amount s).2.1 =
      { s with indexer_stakes :=
          mapInsert s.indexer_stakes env.sender (uadd (s.indexer_stakes env.sender) amount) } := by
  have hraw : (stakeRaw (pureGw gwo) env amount s).1 = .ok () := by
    rw [stake, tx_fst] at h
    exact h
  rw [stake, tx_of_ok _ _ hraw]
  unfold stakeRaw
  simp only [andThenOk_eq]
  rw [transfer_grt_eq]
  rfl

/-- **C1**: whenever a public operation returns an error, no partial state
mutation survives the revert: the post-state equals the pre-state.  In
particular a failed `stake` leaves the sender's Stake Ledger entry
unchanged, and a failed `create_future` writes no Future record for the
(indexer, buyer) key. -/
theorem error_atomicity (gw : Gw) (env : Env) (s : ContractState) :
    (∀ (amount : Nat) (e : Err), (stake gw env amount s).1 = .error e →
       (stake gw env amount s).2.1 = s) ∧
    (∀ (buyer : Addr) (amount duration : Nat) (e : Err),
       (create_future gw env buyer amount duration s).1 = .error e →
       (create_future gw env buyer amount duration s).2.1 = s) ∧
    (∀ (indexer : Addr) (e : Err), (cancel_future gw env indexer s).1 = .error e →
       (cancel_future gw env indexer s).2.1 = s) ∧
    (∀ (buyer : Addr) (e : Err), (settle_future gw env buyer s).1 = .error e →
       (settle_future gw env buyer s).2.1 = s) ∧
    (∀ (sub : B256) (blk : Nat) (poi : B256) (e : Err),
       (submit_poi env sub blk poi s).1 = .error e →
       (submit_poi env sub blk poi s).2.1 = s) ∧
    (∀ (amount : Nat) (e : Err), (stake gw env amount s).1 = .error e →
       (stake gw env amount s).2.1.indexer_stakes env.sender = s.indexer_stakes env.sender) ∧
    (∀ (buyer : Addr) (amount duration : Nat) (e : Err),
       (create_future gw env buyer amount duration s).1 = .error e →
       (create_future gw env buyer amount duration s).2.1.futures (env.sender, buyer) =
         s.futures (env.sender, buyer)) := by
  refine ⟨?_, ?_, ?_, ?_, ?_, ?_, ?_⟩
  · intro amount e h
    rw [stake] at h ⊢
    exact tx_error_snd _ _ _ h
  · intro buyer amount duration e h
    rw [create_future] at h ⊢
    exact tx_error_snd _ _ _ h
  · intro indexer e h
    rw [cancel_future] at h ⊢
    exact tx_error_snd _ _ _ h
  · intro buyer e h
    rw [settle_future] at h ⊢
    exact tx_error_snd _ _ _ h
  · intro sub blk poi e h
    rw [submit_poi] at h ⊢
    exact tx_error_snd _ _ _ h
  · intro amount e h
    rw [stake] at h ⊢
    rw [tx_error_snd _ _ _ h]
  · intro buyer amount duration e h
    rw [create_future] at h ⊢
    rw [tx_error_snd _ _ _ h]

/-- Witness for C1: with a gateway returning `false`, staking 10 from the
empty state fails with `TransferFailed` and the state (in particular the
ledger entry incremented before the transfer) is fully reverted; likewise a
`create_future` whose escrow transfer fails writes no record. -/
theorem error_atomicity_witness :
    (stake (pureGw gwAlwaysFalse) ⟨1, 0, 5⟩ 10 s0).1 = .error .TransferFailed ∧
    (stake (pureGw gwAlwaysFalse) ⟨1, 0, 5⟩ 10 s0).2.1 = s0 ∧
    (create_future (pureGw gwAlwaysFalse) ⟨1, 0, 5⟩ 2 0 7 s0).1 = .error .TransferFailed ∧
    (create_future (pureGw gwAlwaysFalse) ⟨1, 0, 5⟩ 2 0 7 s0).2.1 = s0 :=
  ⟨rfl, (error_atomicity (pureGw gwAlwaysFalse) ⟨1, 0, 5⟩ s0).1 10 .TransferFailed rfl,
   rfl, (error_atomicity (pureGw gwAlwaysFalse) ⟨1, 0, 5⟩ s0).2.1 2 0 7 .TransferFailed rfl⟩

/-- **C8**: two `submit_poi` calls for the same (subgraphId, blockNumber)
key leave exactly the second POI value for that key (last write wins, no
history), and entries for every other key are unaffected. -/
theorem submit_poi_last_write_wins (env1 env2 : Env) (s : ContractState)
    (sub : B256) (blk : Nat) (p1 p2 : B256) :
    (submit_poi env1 sub blk p1 s).1 = .ok () ∧
    (submit_poi env2 sub blk p2 ((submit_poi env1 sub blk p1 s).2.1)).1 = .ok () ∧
    ∀ k : B256 × Nat,
      (submit_poi env2 sub blk p2 ((submit_poi env1 sub blk p1 s).2.1)).2.1.poi_data k =
        if k = (sub, blk) then p2 else s.poi_data k := by
  refine ⟨rfl, rfl, ?_⟩
  intro k
  unfold submit_poi tx submit_poiRaw mapInsert
  by_cases hk : k = (sub, blk) <;> simp [hk]

/-- Counterexample to C9 as stated: staking `2^256 - 1` and then 2 as
indexer 1 (both transfers succeeding) leaves the `U256` ledger entry at the
wrapped value 1, not at the mathematical sum `(2^256 - 1) + 2`. -/
theorem stake_roundtrip_cex :
    s0.indexer_stakes 1 = 0 ∧
    (stake (pureGw gwAlwaysTrue) ⟨1, 0, 5⟩ (2 ^ 256 - 1) s0).1 = .ok () ∧
    (stake (pureGw gwAlwaysTrue) ⟨1, 7, 5⟩ 2
      ((stake (pureGw gwAlwaysTrue) ⟨1, 0, 5⟩ (2 ^ 256 - 1) s0).2.1)).1 = .ok () ∧
    (stake (pureGw gwAlwaysTrue) ⟨1, 7, 5⟩ 2
      ((stake (pureGw gwAlwaysTrue) ⟨1, 0, 5⟩ (2 ^ 256 - 1) s0).2.1)).2.1.indexer_stakes 1
      = 1 ∧
    (2 ^ 256 - 1) + 2 ≠ 1 :=
  ⟨rfl, rfl, rfl, rfl, by decide⟩

/-- **C9** (amended): starting from `Stake Ledger[X] = 0`, a successful
`stake(X, n)` (with `n < 2^256`, as any `U256` input is) makes the entry
read exactly `n`; a subsequent successful `stake(X, m)` makes it read the
wrapped `U256` sum `(n + m) % 2^256` — equal to the mathematical `n + m`
exactly when `n + m < 2^256`. -/
theorem stake_roundtrip (gwo1 gwo2 : TransferCall → Option Bool) (env1 env2 : Env)
    (s : ContractState) (x : Addr) (n m : Nat)
    (hx1 : env1.sender = x) (hx2 : env2.sender = x)
    (hn : n < U256MOD)
    (h0 : s.indexer_stakes x = 0)
    (h1 : (stake (pureGw gwo1) env1 n s).1 = .ok ()) :
    (stake (pureGw gwo1) env1 n s).2.1.indexer_stakes x = n ∧
    ((stake (pureGw gwo2) env2 m ((stake (pureGw gwo1) env1 n s).2.1)).1 = .ok () →
      (stake (pureGw gwo2) env2 m ((stake (pureGw gwo1) env1 n s).2.1)).2.1.indexer_stakes x
        = (n + m) % U256MOD) ∧
    ((stake (pureGw gwo2) env2 m ((stake (pureGw gwo1) env1 n s).2.1)).1 = .ok () →
      n + m < U256MOD →
      (stake (pureGw gwo2) env2 m ((stake (pureGw gwo1) env1 n s).2.1)).2.1.indexer_stakes x
        = n + m) := by
  have hs1 := stake_pure_state gwo1 env1 n s h1
  have hfirst : (stake (pureGw gwo1) env1 n s).2.1.indexer_stakes x = n := by
    rw [hs1]
    simp [mapInsert, hx1, h0, uadd, Nat.mod_eq_of_lt hn]
  refine ⟨hfirst, ?_, ?_⟩
  · intro h2
    have hs2 := stake_pure_state gwo2 env2 m _ h2
    rw [hs2]
    simp [mapInsert, hx2, hfirst, uadd]
  · intro h2 hnm
    have hs2 := stake_pure_state gwo2 env2 m _ h2
    rw [hs2]
    simp [mapInsert, hx2, hfirst, uadd, Nat.mod_eq_of_lt hnm]

/-- Witness for C9: from the empty ledger, staking 4 then 6 as indexer 1
(all transfers succeeding) reads 4 and then, since 10 < 2^256, exactly 10. -/
theorem stake_roundtrip_witness :
    (4 : Nat) < U256MOD ∧
    s0.indexer_stakes 1 = 0 ∧
    (stake (pureGw gwAlwaysTrue) ⟨1, 0, 5⟩ 4 s0).1 = .ok () ∧
    (stake (pureGw gwAlwaysTrue) ⟨1, 0, 5⟩ 4 s0).2.1.indexer_stakes 1 = 4 ∧
    ((stake (pureGw gwAlwaysTrue) ⟨1, 7, 5⟩ 6
        ((stake (pureGw gwAlwaysTrue) ⟨1, 0, 5⟩ 4 s0).2.1)).1 = .ok () →
      (4 : Nat) + 6 < U256MOD →
      (stake (pureGw gwAlwaysTrue) ⟨1, 7, 5⟩ 6
        ((stake (pureGw gwAlwaysTrue) ⟨1, 0, 5⟩ 4 s0).2.1)).2.1.indexer_stakes 1 = 4 + 6) :=
  ⟨by decide, rfl, rfl,
   (stake_roundtrip gwAlwaysTrue gwAlwaysTrue ⟨1, 0, 5⟩ ⟨1, 7, 5⟩ s0 1 4 6
     rfl rfl (by decide) rfl rfl).1,
   (stake_roundtrip gwAlwaysTrue gwAlwaysTrue ⟨1, 0, 5⟩ ⟨1, 7, 5⟩ s0 1 4 6
     rfl rfl (by decide) rfl rfl).2.2⟩

/-- **C10**: `create_future` with `amount = 0` never fails with
`InsufficientStake` (the stake guard is the strict comparison
`stake < amount`), so — for any indexer, including one with zero stake —
a zero-amount active Future is created whenever no active Future exists for
the key and the (zero-amount) transfer succeeds. -/
theorem create_future_zero_amount (gw : Gw) (gwo : TransferCall → Option Bool) (env : Env)
    (s : ContractState) (buyer : Addr) (duration : Nat) :
    ((create_future gw env buyer 0 duration s).1 ≠ .error .InsufficientStake) ∧
    ((∀ c, gwo c = some true) → (s.futures (env.sender, buyer)).is_active = false →
       (create_future (pureGw gwo) env buyer 0 duration s).1 = .ok () ∧
       (create_future (pureGw gwo) env buyer 0 duration s).2.1.futures (env.sender, buyer) =
         { indexer := env.sender, buyer := buyer, amount := 0,
           start_time := env.now, duration := duration, is_active := true }) := by
  constructor
  · rw [create_future, tx_fst]
    unfold create_futureRaw
    simp only [andThenOk_eq]
    rw [transfer_grt_eq]
    split_ifs with h1 h2 h3 <;> simp_all
  · intro hgwo hina
    have key : (create_future (pureGw gwo) env buyer 0 duration s).1 = .ok () := by
      rw [create_future, tx_fst]
      unfold create_futureRaw
      simp only [andThenOk_eq]
      rw [transfer_grt_eq]
      simp [hina, pureGw, hgwo _]
    refine ⟨key, ?_⟩
    have hraw : (create_futureRaw (pureGw gwo) env buyer 0 duration s).1 = .ok () := by
      rw [create_future, tx_fst] at key
      exact key
    rw [create_future, tx_of_ok _ _ hraw]
    unfold create_futureRaw
    simp only [andThenOk_eq]
    rw [transfer_grt_eq]
    simp [hina, mapInsert, pureGw]

/-- Witness for C10: indexer 3 with zero stake creates a zero-amount future
for buyer 4 on the empty state; the `InsufficientStake` guard does not fire
and the record is written active. -/
theorem create_future_zero_amount_witness :
    (∀ c, gwAlwaysTrue c = some true) ∧
    (s0.futures ((⟨3, 42, 5⟩ : Env).sender, 4)).is_active = false ∧
    (create_future (pureGw gwAlwaysTrue) ⟨3, 42, 5⟩ 4 0 9 s0).1 = .ok () ∧
    (create_future (pureGw gwAlwaysTrue) ⟨3, 42, 5⟩ 4 0 9 s0).2.1.futures (3, 4) =
      { indexer := 3, buyer := 4, amount := 0,
        start_time := 42, duration := 9, is_active := true } :=
  ⟨fun _ => rfl, rfl,
   ((create_future_zero_amount (pureGw gwAlwaysTrue) gwAlwaysTrue ⟨3, 42, 5⟩ s0 4 9).2
     (fun _ => rfl) rfl).1,
   ((create_future_zero_amount (pureGw gwAlwaysTrue) gwAlwaysTrue ⟨3, 42, 5⟩ s0 4 9).2
     (fun _ => rfl) rfl).2⟩

/-- Any terminal transition attempted on an inactive (or absent) key is
rejected with `NoActiveFuture`, with no state change and no transfer. -/
lemma inactive_terminalOpsRejected (s : ContractState) (indexer buyer : Addr)
    (hk : (s.futures (indexer, buyer)).is_active = false) :
    terminalOpsRejected s indexer buyer := by
  constructor
  · intro gw now selfA
    unfold cancel_future tx cancel_futureRaw
    simp [hk]
  · intro gw now selfA
    unfold settle_future tx settle_futureRaw
    simp [hk]

/-- **C3**: in both terminal transitions the `is_active = false` flag is
committed to the registry before the outbound transfer is attempted — every
state the gateway observes during `cancel_future` (resp. `settle_future`)
already has `is_active = false` for the key — and any `cancel_future` or
`settle_future` executed against a state whose key is inactive (in
particular a reentrant call made during the transfer) is rejected with
`NoActiveFuture`, changes nothing and pays out nothing; hence no
gateway-reentrant same-key call can pay the same Future's amount twice. -/
theorem terminal_flag_before_transfer (gw : Gw) (env : Env) (s : ContractState)
    (indexer buyer : Addr) :
    (∀ p ∈ (cancel_future gw env indexer s).2.2,
       (p.2.futures (indexer, env.sender)).is_active = false) ∧
    (∀ p ∈ (settle_future gw env buyer s).2.2,
       (p.2.futures (env.sender, buyer)).is_active = false) ∧
    ((s.futures (indexer, buyer)).is_active = false →
       terminalOpsRejected s indexer buyer) := by
  refine ⟨?_, ?_, fun hina => inactive_terminalOpsRejected s indexer buyer hina⟩
  · intro p hp
    rw [cancel_future, tx_trace] at hp
    unfold cancel_futureRaw at hp
    simp only [andThenOk_eq] at hp
    rw [transfer_grt_eq] at hp
    split_ifs at hp with h1 hg
    · simp at hp
    · simp only [List.mem_singleton] at hp
      subst hp
      simp [mapInsert]
    · simp only [List.mem_singleton] at hp
      subst hp
      simp [mapInsert]
  · intro p hp
    rw [settle_future, tx_trace] at hp
    unfold settle_futureRaw check_indexer_performance at hp
    simp only [andThenOk_eq] at hp
    rw [transfer_grt_eq] at hp
    split_ifs at hp with h1 h2 h3 hg
    · simp at hp
    · simp at hp
    · simp at hp
    · simp only [List.mem_singleton] at hp
      subst hp
      simp [mapInsert]
    · simp only [List.mem_singleton] at hp
      subst hp
      simp [mapInsert]

/-- Witness for C3: cancelling the active (1, 2) future of `sActive`
produces exactly one gateway call, whose observed state `sCancelMid`
already has the flag cleared; and on a state with the key inactive both
terminal transitions are rejected. -/
theorem terminal_flag_before_transfer_witness :
    ((TransferCall.transferFrom 7 5 2 50, sCancelMid) ∈
       (cancel_future (pureGw gwAlwaysTrue) ⟨2, 500, 5⟩ 1 sActive).2.2) ∧
    (sCancelMid.futures (1, 2)).is_active = false ∧
    (s0.futures (1, 2)).is_active = false ∧
    terminalOpsRejected s0 1 2 :=
  ⟨List.Mem.head _,
   (terminal_flag_before_transfer (pureGw gwAlwaysTrue) ⟨2, 500, 5⟩ sActive 1 2).1
     (TransferCall.transferFrom 7 5 2 50, sCancelMid) (List.Mem.head _),
   rfl,
   (terminal_flag_before_transfer (pureGw gwAlwaysTrue) ⟨2, 500, 5⟩ s0 1 2).2.2 rfl⟩

/-- A non-reentrant `stake` never touches the Future Registry. -/
lemma stake_pure_futures (gwo : TransferCall → Option Bool) (env : Env) (amount : Nat)
    (s : ContractState) :
    (stake (pureGw gwo) env amount s).2.1.futures = s.futures := by
  unfold stake tx stakeRaw
  simp only [andThenOk_eq]
  rw [transfer_grt_eq]
  split_ifs <;> rfl

/-- A `submit_poi` never touches the Future Registry. -/
lemma submit_poi_futures (env : Env) (sub : B256) (blk : Nat) (poi : B256)
    (s : ContractState) :
    (submit_poi env sub blk poi s).2.1.futures = s.futures := rfl

/-- A non-reentrant `create_future` for a key other than `k` leaves the
record at `k` unchanged. -/
lemma create_pure_other_key (gwo : TransferCall → Option Bool) (env : Env)
    (buyer : Addr) (amount duration : Nat) (s : ContractState) (k : Addr × Addr)
    (hne : (env.sender, buyer) ≠ k) :
    (create_future (pureGw gwo) env buyer amount duration s).2.1.futures k =
      s.futures k := by
  unfold create_future tx create_futureRaw
  simp only [andThenOk_eq]
  rw [transfer_grt_eq]
  split_ifs <;> simp [pureGw, mapInsert, Ne.symm hne]

/-- A non-reentrant `cancel_future` preserves inactivity of any key. -/
lemma cancel_pure_inactive_preserved (gwo : TransferCall → Option Bool) (env : Env)
    (indexer : Addr) (s : ContractState) (k : Addr × Addr)
    (hk : (s.futures k).is_active = false) :
    ((cancel_future (pureGw gwo) env indexer s).2.1.futures k).is_active = false := by
  unfold cancel_future tx cancel_futureRaw
  simp only [andThenOk_eq]
  rw [transfer_grt_eq]
  by_cases hkk : k = (indexer, env.sender)
  · subst hkk
    split_ifs <;> simp [pureGw, mapInsert, hk]
  · split_ifs <;> simp [pureGw, mapInsert, hkk, hk]

/-- A non-reentrant `settle_future` preserves inactivity of any key. -/
lemma settle_pure_inactive_preserved (gwo : TransferCall → Option Bool) (env : Env)
    (buyer : Addr) (s : ContractState) (k : Addr × Addr)
    (hk : (s.futures k).is_active = false) :
    ((settle_future (pureGw gwo) env buyer s).2.1.futures k).is_active = false := by
  unfold settle_future tx settle_futureRaw check_indexer_performance
  simp only [andThenOk_eq]
  rw [transfer_grt_eq]
  by_cases hkk : k = (env.sender, buyer)
  · subst hkk
    split_ifs <;> simp [pureGw, mapInsert, hk]
  · split_ifs <;> simp [pureGw, mapInsert, hkk, hk]

/-- One non-reentrant top-level call that is not a `create_future` for the
key `k` preserves inactivity of `k`. -/
lemma stepCall_inactive_preserved (c : Call) (k : Addr × Addr) (s : ContractState)
    (hk : (s.futures k).is_active = false) (hnc : NotCreateFor k c) :
    ((stepCall c s).futures k).is_active = false := by
  rcases c with ⟨env, gwo, op⟩
  cases op with
  | stakeOp a =>
    unfold stepCall
    rw [stake_pure_futures]
    exact hk
  | createOp b a d =>
    unfold stepCall
    rw [create_pure_other_key gwo env b a d s k (hnc b a d rfl)]
    exact hk
  | cancelOp i =>
    exact cancel_pure_inactive_preserved gwo env i s k hk
  | settleOp b =>
    exact settle_pure_inactive_preserved gwo env b s k hk
  | poiOp sub blk poi =>
    unfold stepCall
    rw [submit_poi_futures]
    exact hk

/-- A sequence of non-reentrant calls containing no `create_future` for the
key `k` preserves inactivity of `k`. -/
lemma run_inactive_preserved (cs : List Call) (k : Addr × Addr) (s : ContractState)
    (hk : (s.futures k).is_active = false) (hcs : ∀ c ∈ cs, NotCreateFor k c) :
    ((run cs s).futures k).is_active = false := by
  induction cs generalizing s with
  | nil => exact hk
  | cons c rest ih =>
    exact ih (stepCall c s)
      (stepCall_inactive_preserved c k s hk (hcs c (by simp)))
      (fun d hd => hcs d (by simp [hd]))

/-- A successful non-reentrant `cancel_future` leaves its key inactive. -/
lemma cancel_pure_ok_inactive (gwo : TransferCall → Option Bool) (env : Env)
    (indexer : Addr) (s : ContractState)
    (h : (cancel_future (pureGw gwo) env indexer s).1 = .ok ()) :
    ((cancel_future (pureGw gwo) env indexer s).2.1.futures
      (indexer, env.sender)).is_active = false := by
  have hraw : (cancel_futureRaw (pureGw gwo) env indexer s).1 = .ok () := by
    rw [cancel_future, tx_fst] at h
    exact h
  rw [cancel_future, tx_of_ok _ _ hraw]
  unfold cancel_futureRaw at hraw ⊢
  simp only [andThenOk_eq] at hraw ⊢
  rw [transfer_grt_eq] at hraw ⊢
  split_ifs at hraw ⊢ with h1 hg
  all_goals simp_all [pureGw, mapInsert]

/-- A successful non-reentrant `settle_future` leaves its key inactive. -/
lemma settle_pure_ok_inactive (gwo : TransferCall → Option Bool) (env : Env)
    (buyer : Addr) (s : ContractState)
    (h : (settle_future (pureGw gwo) env buyer s).1 = .ok ()) :
    ((settle_future (pureGw gwo) env buyer s).2.1.futures
      (env.sender, buyer)).is_active = false := by
  have hraw : (settle_futureRaw (pureGw gwo) env buyer s).1 = .ok () := by
    rw [settle_future, tx_fst] at h
    exact h
  rw [settle_future, tx_of_ok _ _ hraw]
  unfold settle_futureRaw check_indexer_performance at hraw ⊢
  simp only [andThenOk_eq] at hraw ⊢
  rw [transfer_grt_eq] at hraw ⊢
  split_ifs at hraw ⊢ with h1 h2 h3 hg
  all_goals simp_all [pureGw, mapInsert]

/-- **C2**: a Future transitions to inactive at most once per creation
cycle: after a successful `cancel_future` or `settle_future` on a key, any
later `cancel_future` or `settle_future` on that key — including after any
further sequence of calls containing no `create_future` for the key —
fails with `NoActiveFuture`. -/
theorem terminal_transition_at_most_once (gwo : TransferCall → Option Bool) (env : Env)
    (s : ContractState) (cs : List Call) :
    (∀ indexer, (∀ c ∈ cs, NotCreateFor (indexer, env.sender) c) →
       (cancel_future (pureGw gwo) env indexer s).1 = .ok () →
       terminalOpsRejected (run cs ((cancel_future (pureGw gwo) env indexer s).2.1))
         indexer env.sender) ∧
    (∀ buyer, (∀ c ∈ cs, NotCreateFor (env.sender, buyer) c) →
       (settle_future (pureGw gwo) env buyer s).1 = .ok () →
       terminalOpsRejected (run cs ((settle_future (pureGw gwo) env buyer s).2.1))
         env.sender buyer) := by
  constructor
  · intro indexer hcs hok
    exact inactive_terminalOpsRejected _ _ _
      (run_inactive_preserved cs _ _ (cancel_pure_ok_inactive gwo env indexer s hok) hcs)
  · intro buyer hcs hok
    exact inactive_terminalOpsRejected _ _ _
      (run_inactive_preserved cs _ _ (settle_pure_ok_inactive gwo env buyer s hok) hcs)

/-- Witness for C2: buyer 2 cancels the active (1, 2) future of `sActive`
successfully; with no further calls, both terminal transitions on (1, 2)
are then rejected with `NoActiveFuture`. -/
theorem terminal_transition_at_most_once_witness :
    (cancel_future (pureGw gwAlwaysTrue) ⟨2, 500, 5⟩ 1 sActive).1 = .ok () ∧
    terminalOpsRejected
      (run [] ((cancel_future (pureGw gwAlwaysTrue) ⟨2, 500, 5⟩ 1 sActive).2.1)) 1 2 :=
  ⟨rfl,
   (terminal_transition_at_most_once gwAlwaysTrue ⟨2, 500, 5⟩ sActive []).1 1
     (fun c hc => absurd hc (List.not_mem_nil c)) rfl⟩

/-- A non-reentrant `create_future` never touches the Stake Ledger. -/
lemma create_pure_stakes (gwo : TransferCall → Option Bool) (env : Env)
    (buyer : Addr) (amount duration : Nat) (s : ContractState) :
    (create_future (pureGw gwo) env buyer amount duration s).2.1.indexer_stakes =
      s.indexer_stakes := by
  unfold create_future tx create_futureRaw
  simp only [andThenOk_eq]
  rw [transfer_grt_eq]
  split_ifs <;> rfl

/-- A non-reentrant `cancel_future` never touches the Stake Ledger. -/
lemma cancel_pure_stakes (gwo : TransferCall → Option Bool) (env : Env)
    (indexer : Addr) (s : ContractState) :
    (cancel_future (pureGw gwo) env indexer s).2.1.indexer_stakes =
      s.indexer_stakes := by
  unfold cancel_future tx cancel_futureRaw
  simp only [andThenOk_eq]
  rw [transfer_grt_eq]
  split_ifs <;> rfl

/-- A non-reentrant `settle_future` never touches the Stake Ledger. -/
lemma settle_pure_stakes (gwo : TransferCall → Option Bool) (env : Env)
    (buyer : Addr) (s : ContractState) :
    (settle_future (pureGw gwo) env buyer s).2.1.indexer_stakes =
      s.indexer_stakes := by
  unfold settle_future tx settle_futureRaw check_indexer_performance
  simp only [andThenOk_eq]
  rw [transfer_grt_eq]
  split_ifs <;> rfl

/-- A `submit_poi` never touches the Stake Ledger. -/
lemma submit_poi_stakes (env : Env) (sub : B256) (blk : Nat) (poi : B256)
    (s : ContractState) :
    (submit_poi env sub blk poi s).2.1.indexer_stakes = s.indexer_stakes := rfl

/-- A non-reentrant top-level call whose `stake` (if it is one) does not
overflow the 256-bit entry never decreases any ledger entry. -/
lemma stepCall_stakes_mono (c : Call) (s : ContractState) (x : Addr)
    (hov : match c.op with
           | .stakeOp a => s.indexer_stakes c.env.sender + a < U256MOD
           | _ => True) :
    s.indexer_stakes x ≤ (stepCall c s).indexer_stakes x := by
  rcases c with ⟨env, gwo, op⟩
  cases op with
  | stakeOp a =>
    unfold stepCall stake tx stakeRaw
    simp only [andThenOk_eq]
    rw [transfer_grt_eq]
    split_ifs
    · simp only [pureGw, mapInsert]
      split_ifs with hx
      · subst hx
        rw [uadd_eq_of_lt hov]
        exact Nat.le_add_right _ _
      · exact le_rfl
    · exact le_rfl
  | createOp b a d =>
    unfold stepCall
    rw [create_pure_stakes]
  | cancelOp i =>
    unfold stepCall
    rw [cancel_pure_stakes]
  | settleOp b =>
    unfold stepCall
    rw [settle_pure_stakes]
  | poiOp sub blk poi =>
    unfold stepCall
    rw [submit_poi_stakes]

/-- Counterexample to C7 as stated: staking `2^256 - 1` and then 2 as
indexer 1 (transfers succeeding) wraps the `U256` ledger entry from
`2^256 - 1` down to 1 — the second operation of the sequence decreases
the entry. -/
theorem stake_ledger_monotone_cex :
    (run [callStakeHuge] s0).indexer_stakes 1 = 2 ^ 256 - 1 ∧
    (run [callStakeHuge, callStakeTwo] s0).indexer_stakes 1 = 1 ∧
    ¬ (run [callStakeHuge] s0).indexer_stakes 1 ≤
        (run [callStakeHuge, callStakeTwo] s0).indexer_stakes 1 := by
  refine ⟨rfl, rfl, ?_⟩
  intro h
  have h1 : (run [callStakeHuge] s0).indexer_stakes 1 = 2 ^ 256 - 1 := rfl
  have h2 : (run [callStakeHuge, callStakeTwo] s0).indexer_stakes 1 = 1 := rfl
  rw [h1, h2] at h
  exact absurd h (by decide)

/-- **C7** (amended): for every indexer, the Stake Ledger entry is
monotonically non-decreasing across any sequence of public operations in
which no `stake` overflows the 256-bit entry it increments; an overflowing
`stake` wraps the entry modulo `2^256` and is the only way any operation of
this core decreases a ledger entry. -/
theorem stake_ledger_monotone (cs : List Call) (s : ContractState) (x : Addr)
    (hov : NoStakeOverflow cs s) :
    s.indexer_stakes x ≤ (run cs s).indexer_stakes x := by
  induction cs generalizing s with
  | nil => exact le_rfl
  | cons c rest ih =>
    exact le_trans (stepCall_stakes_mono c s x hov.1) (ih (stepCall c s) hov.2)

/-- Witness for C7: indexer 1 (stake 100 in `sActive`) stakes another 3
without overflow; the entry does not decrease across the run. -/
theorem stake_ledger_monotone_witness :
    NoStakeOverflow [callStakeSmall] sActive ∧
    sActive.indexer_stakes 1 ≤ (run [callStakeSmall] sActive).indexer_stakes 1 := by
  have hov : NoStakeOverflow [callStakeSmall] sActive := by
    refine ⟨?_, trivial⟩
    show sActive.indexer_stakes 1 + 3 < U256MOD
    decide
  exact ⟨hov, stake_ledger_monotone [callStakeSmall] sActive 1 hov⟩
